import Mathlib

/-!
Verification of the TRIDENT match-scoring engine
(`src/backend/src/services/matchingService.js` and
`src/backend/src/controllers/matchController.js`).

The JavaScript code is shallowly embedded: database rows become Lean
structures whose nullable columns are `Option` fields, JavaScript numbers
become `ℚ` (rates, budgets, scores) or `ℤ` (counts, hours, dates as epoch
values), and the pervasive `x || y` falsy-coalescing idiom becomes explicit
resolution helpers (`jsOrQ`, `jsOrZ`, `jsOrS`): in JavaScript both
`null`/`undefined` and `0` (resp. the empty string) select the fallback.
`Math.round x` is `⌊x + 1/2⌋`.  Fallible operations return `Except String`.
-/

namespace Trident

/-! ### JavaScript coalescing and rounding helpers -/

/-- `a || b` for a nullable number: `0`, like `null`/`undefined`, is falsy. -/
def jsOrQ (a : Option ℚ) (b : ℚ) : ℚ :=
  match a with
  | some x => if x = 0 then b else x
  | none => b

/-- `a || b` for a nullable integer (`parseInt(a) || b`). -/
def jsOrZ (a : Option ℤ) (b : ℤ) : ℤ :=
  match a with
  | some x => if x = 0 then b else x
  | none => b

/-- `a || b` for a nullable string: the empty string is falsy. -/
def jsOrS (a : Option String) (b : String) : String :=
  match a with
  | some s => if s = "" then b else s
  | none => b

/-- `a || b` where the fallback is itself nullable
(`researcher.hourly_rate_min || researcher.rate_min`). -/
def jsOrOptQ (a b : Option ℚ) : Option ℚ :=
  match a with
  | some x => if x = 0 then b else some x
  | none => b

/-- JavaScript truthiness test for a nullable number: `!x` holds for
`null`/`undefined` and for `0`. -/
def jsFalsyQ (a : Option ℚ) : Bool :=
  decide (a.getD 0 = 0)

/-- `Math.round`: round half up (`Math.round x = ⌊x + 0.5⌋`). -/
def jsRound (q : ℚ) : ℤ :=
  ⌊q + 1/2⌋

/-- `Math.round(q * 10) / 10`: round to one decimal place. -/
def round1 (q : ℚ) : ℚ :=
  ((jsRound (q * 10) : ℤ) : ℚ) / 10

/-- Render a nullable integer the way a JavaScript template literal does. -/
def optIntStr : Option ℤ → String
  | some n => toString n
  | none => "null"

/-! ### Data model

Rows as the scoring engine sees them (`.toJSON()` output).  All columns that
the database may leave `NULL` are `Option` fields. -/

structure Organization where
  id : ℕ
  name : String
  focus_areas : Option String
deriving DecidableEq

structure Project where
  project_id : ℕ
  title : String
  problem : Option String
  outcomes : Option String
  timeline : Option String
  methods_required : Option String
  budget_min : Option ℚ
  budget_max : Option ℚ
  estimated_hours : Option ℤ
  start_date : Option ℤ
  org_id : Option ℕ
  status : String
deriving DecidableEq

/-- A project record with its organization attached
(`projectData.organization = organization ? organization.toJSON() : null`). -/
structure ProjectData extends Project where
  organization : Option Organization
deriving DecidableEq

structure Researcher where
  user_id : ℕ
  title : Option String
  affiliation : Option String
  institution : Option String
  expertise : Option String
  methods : Option String
  domains : Option String
  tools : Option String
  research_interests : Option String
  compliance_certifications : Option String
  rate_min : Option ℚ
  rate_max : Option ℚ
  hourly_rate_min : Option ℚ
  hourly_rate_max : Option ℚ
  availability : Option String
  available_start_date : Option ℤ
  current_projects_count : Option ℤ
  max_concurrent_projects : Option ℤ
  projects_completed : Option ℤ
deriving DecidableEq

structure User where
  id : ℕ
  name : String
  email : String
  account_status : String
  deleted_at : Option ℤ
deriving DecidableEq

/-! ### Text-set utilities (`matchingService.js` lines 26-73) -/

/-- `String.prototype.split(',')` at the character level: cut the character
list at every comma (an empty input yields one empty piece, like
`"".split(',')` returning `[""]`). -/
def splitOnComma : List Char → List Char → List (List Char)
  | [], acc => [acc.reverse]
  | c :: cs, acc =>
      if c = ',' then acc.reverse :: splitOnComma cs []
      else splitOnComma cs (c :: acc)

/-- `String.prototype.trim()`: drop whitespace from both ends. -/
def trimChars (cs : List Char) : List Char :=
  ((cs.dropWhile Char.isWhitespace).reverse.dropWhile Char.isWhitespace).reverse

/-- `parseCommaSeparated`: split on commas, trim, lowercase, drop empties;
`null`/non-string input yields `[]`. -/
def parseCommaSeparated : Option String → List String
  | none => []
  | some str =>
      ((splitOnComma str.data []).map
        (fun item => String.mk ((trimChars item).map Char.toLower))).filter
        (fun item => item ≠ "")

/-- `calculateJaccardSimilarity`: build sets from the two lists and return
`|A∩B| / |A∪B|`, with explicit `0` when either set is empty. -/
def calculateJaccardSimilarity (set1 set2 : List String) : ℚ :=
  let s1 := set1.toFinset
  let s2 := set2.toFinset
  if s1.card = 0 ∧ s2.card = 0 then 0
  else if s1.card = 0 ∨ s2.card = 0 then 0
  else ((s1 ∩ s2).card : ℚ) / ((s1 ∪ s2).card : ℚ)

/-- A `{min, max}` argument to `checkRangeOverlap`; either bound may be
absent. -/
structure NumRange where
  min : Option ℚ
  max : Option ℚ
deriving DecidableEq

/-- `checkRangeOverlap`: `0` when any bound is falsy (absent or zero) or the
ranges do not overlap, else overlap length over average range length, capped
at `1`. -/
def checkRangeOverlap (range1 range2 : NumRange) : ℚ :=
  if jsFalsyQ range1.min || jsFalsyQ range1.max ||
      jsFalsyQ range2.min || jsFalsyQ range2.max then 0
  else
    let a1 := range1.min.getD 0
    let b1 := range1.max.getD 0
    let a2 := range2.min.getD 0
    let b2 := range2.max.getD 0
    let overlapMin := max a1 a2
    let overlapMax := min b1 b2
    if overlapMax ≤ overlapMin then 0
    else
      let overlapSize := overlapMax - overlapMin
      let avgRangeSize := ((b1 - a1) + (b2 - a2)) / 2
      min (overlapSize / avgRangeSize) 1

/-! ### Factor scorers (`matchingService.js` lines 82-210) -/

/-- `calculateExpertiseScore` (max 30): Jaccard similarity of the two tag
lists × 30, rounded to one decimal; `0` when either side has no tags. -/
def calculateExpertiseScore (projectExpertise researcherExpertise : Option String) : ℚ :=
  let projectTags := parseCommaSeparated projectExpertise
  let researcherTags := parseCommaSeparated researcherExpertise
  if projectTags = [] ∨ researcherTags = [] then 0
  else round1 (calculateJaccardSimilarity projectTags researcherTags * 30)

/-- `calculateMethodsScore` (max 25): full credit with no requirements, `0`
when the researcher lists none, else matched/required × 25 rounded. -/
def calculateMethodsScore (requiredMethods researcherMethods : Option String) : ℚ :=
  let required := parseCommaSeparated requiredMethods
  let available := parseCommaSeparated researcherMethods
  if required = [] then 25
  else if available = [] then 0
  else
    let matchedMethods := required.filter (fun m => m ∈ available)
    let matchPercentage := (matchedMethods.length : ℚ) / (required.length : ℚ)
    round1 (matchPercentage * 25)

/-- The rate minimum `calculateBudgetScore` works with:
`parseFloat(researcher.rate_min) || parseFloat(researcher.hourly_rate_min) || 0`. -/
def resolvedRateMin (researcher : Researcher) : ℚ :=
  jsOrQ researcher.rate_min (jsOrQ researcher.hourly_rate_min 0)

/-- The rate maximum `calculateBudgetScore` works with:
`parseFloat(researcher.rate_max) || parseFloat(researcher.hourly_rate_max) || 0`. -/
def resolvedRateMax (researcher : Researcher) : ℚ :=
  jsOrQ researcher.rate_max (jsOrQ researcher.hourly_rate_max 0)

/-- `calculateBudgetScore` (max 15): overlap between the project budget range
and the researcher cost range (rate × estimated hours) × 15, rounded; `0`
when either minimum resolves to zero. -/
def calculateBudgetScore (project : Project) (researcher : Researcher) : ℚ :=
  let projectMin := jsOrQ project.budget_min 0
  let projectMax := jsOrQ project.budget_max (jsOrQ project.budget_min 0)
  let estimatedHours := jsOrZ project.estimated_hours 100
  let rateMin := resolvedRateMin researcher
  let rateMax := resolvedRateMax researcher
  if projectMin = 0 ∨ rateMin = 0 then 0
  else
    let researcherCostMin := rateMin * (estimatedHours : ℚ)
    let researcherCostMax := rateMax * (estimatedHours : ℚ)
    let overlapPercentage := checkRangeOverlap
      ⟨some projectMin, some projectMax⟩
      ⟨some researcherCostMin, some researcherCostMax⟩
    round1 (overlapPercentage * 15)

/-- `calculateAvailabilityScore` (max 10): 5 points for spare capacity, 5
points for start-date alignment (granted outright when the project has no
start date). -/
def calculateAvailabilityScore (project : Project) (researcher : Researcher) : ℚ :=
  let currentProjects := researcher.current_projects_count.getD 0
  let maxProjects := jsOrZ researcher.max_concurrent_projects 3
  let capacityScore : ℚ := if currentProjects < maxProjects then 5 else 0
  let dateScore : ℚ :=
    match project.start_date, researcher.available_start_date with
    | some projectStart, some researcherAvailable =>
        if researcherAvailable ≤ projectStart then 5 else 0
    | none, _ => 5
    | some _, none => 0
  capacityScore + dateScore

/-- `calculateExperienceScore` (max 10): step function on the completed
project count. -/
def calculateExperienceScore (projectsCompleted : Option ℤ) : ℚ :=
  let count := projectsCompleted.getD 0
  if count = 0 then 0
  else if count ≤ 2 then 3
  else if count ≤ 5 then 5
  else if count ≤ 10 then 7
  else if count ≤ 20 then 9
  else 10

/-- `calculateDomainScore` (max 10): Jaccard similarity between organization
focus areas and researcher domains × 10, rounded. -/
def calculateDomainScore (orgFocusAreas researcherDomains : Option String) : ℚ :=
  let orgDomains := parseCommaSeparated orgFocusAreas
  let resDomains := parseCommaSeparated researcherDomains
  if orgDomains = [] ∨ resDomains = [] then 0
  else round1 (calculateJaccardSimilarity orgDomains resDomains * 10)

/-! ### Score aggregator (`matchingService.js` lines 216-251) -/

structure Breakdown where
  expertise : ℚ
  methods : ℚ
  budget : ℚ
  availability : ℚ
  experience : ℚ
  domain : ℚ
deriving DecidableEq

structure MatchScore where
  totalScore : ℚ
  breakdown : Breakdown
  strengths : List String
  concerns : List String
deriving DecidableEq

/-- `calculateMatchScore`: run the six scorers, sum (and round) the total,
and derive the fixed-threshold strength/concern tags. -/
def calculateMatchScore (project : ProjectData) (researcher : Researcher) : MatchScore :=
  let breakdown : Breakdown :=
    { expertise := calculateExpertiseScore
        (some (jsOrS project.problem (jsOrS project.outcomes "")))
        researcher.expertise
      methods := calculateMethodsScore project.methods_required researcher.methods
      budget := calculateBudgetScore project.toProject researcher
      availability := calculateAvailabilityScore project.toProject researcher
      experience := calculateExperienceScore researcher.projects_completed
      domain := calculateDomainScore
        (project.organization.bind Organization.focus_areas)
        researcher.domains }
  let totalScore := breakdown.expertise + breakdown.methods + breakdown.budget +
    breakdown.availability + breakdown.experience + breakdown.domain
  let expertisePct := jsRound (breakdown.expertise / 30 * 100)
  let completedStr := optIntStr researcher.projects_completed
  let strengths : List String :=
    (if 20 ≤ breakdown.expertise then [s!"Strong expertise match ({expertisePct}%)"] else []) ++
    (if breakdown.methods = 25 then ["All required methods present"]
     else if 15 ≤ breakdown.methods then ["Most required methods present"] else []) ++
    (if 12 ≤ breakdown.budget then ["Rate fits within budget"] else []) ++
    (if breakdown.availability = 10 then ["Available and has capacity"] else []) ++
    (if 8 ≤ breakdown.experience then [s!"Highly experienced ({completedStr} projects)"] else [])
  let concerns : List String :=
    (if breakdown.expertise < 15 then ["Limited expertise overlap"] else []) ++
    (if breakdown.methods < 15 then ["Missing some required methods"] else []) ++
    (if breakdown.budget < 8 then ["Rate may not fit budget"] else []) ++
    (if breakdown.availability < 5 then ["May not be available or at capacity"] else []) ++
    (if breakdown.domain < 5 then ["Different research domain focus"] else [])
  { totalScore := round1 totalScore
    breakdown := breakdown
    strengths := strengths
    concerns := concerns }

/-! ### Finders (`matchingService.js` lines 258-458)

The database tables the finders query are passed in as lists; the Sequelize
calls (`findByPk`, `findOne`, `findAll` with a `where` filter) become list
lookups over those tables. -/

/-- The trimmed researcher object placed in a project-side match entry. -/
structure ResearcherCard where
  user_id : ℕ
  name : String
  title : Option String
  affiliation : Option String
  institution : Option String
  expertise : List String
  methods : List String
  domains : List String
  tools : List String
  research_interests : Option String
  compliance_certifications : Option String
  rate_min : Option ℚ
  rate_max : Option ℚ
  availability : Option String
  projects_completed : Option ℤ
deriving DecidableEq

/-- One entry of the project-side finder's `matches` array. -/
structure ProjectMatchEntry where
  researcher : ResearcherCard
  matchScore : ℚ
  scoreBreakdown : Breakdown
  strengths : List String
  concerns : List String
  hasApplied : Bool
  isBookmarked : Bool
deriving DecidableEq

/-- The `{id, name}` organization reference in a researcher-side entry. -/
structure OrgRef where
  id : ℕ
  name : String
deriving DecidableEq

/-- The trimmed project object placed in a researcher-side match entry. -/
structure ProjectCard where
  project_id : ℕ
  title : String
  problem : Option String
  outcomes : Option String
  timeline : Option String
  budget_min : Option ℚ
  budget_max : Option ℚ
  methods_required : List String
  organization : Option OrgRef
deriving DecidableEq

/-- One entry of the researcher-side finder's `matches` array. -/
structure ResearcherMatchEntry where
  project : ProjectCard
  matchScore : ℚ
  scoreBreakdown : Breakdown
  strengths : List String
  concerns : List String
  hasApplied : Bool
  isBookmarked : Bool
deriving DecidableEq

/-- The `{limit, offset, minScore}` options both finders receive (the HTTP
layer clamps `limit`/`offset` to non-negative integers before the call). -/
structure MatchOptions where
  limit : ℕ
  offset : ℕ
  minScore : ℚ
deriving DecidableEq

structure Pagination where
  total : ℕ
  limit : ℕ
  offset : ℕ
  hasMore : Bool
deriving DecidableEq

structure FindResult (α : Type) where
  matchList : List α
  pagination : Pagination
deriving DecidableEq

/-- The sort order `(a, b) => b.matchScore - a.matchScore`: `a` may come
before `b` exactly when its score is at least `b`'s. -/
def scoreDesc {α : Type} (score : α → ℚ) (a b : α) : Prop :=
  score b ≤ score a

instance {α : Type} (score : α → ℚ) : DecidableRel (scoreDesc score) :=
  fun a b => inferInstanceAs (Decidable (score b ≤ score a))

instance {α : Type} (score : α → ℚ) : IsTotal α (scoreDesc score) :=
  ⟨fun a b => le_total (score b) (score a)⟩

instance {α : Type} (score : α → ℚ) : IsTrans α (scoreDesc score) :=
  ⟨fun _ _ _ h1 h2 => le_trans h2 h1⟩

/-- The shared tail of both finders: filter out scores below `minScore`,
stable-sort descending by score, slice `[offset, offset + limit)`, and build
the pagination object. -/
def paginateMatches {α : Type} (score : α → ℚ) (entries : List α)
    (options : MatchOptions) : FindResult α :=
  let filteredMatches := entries.filter (fun m => options.minScore ≤ score m)
  let sortedMatches := filteredMatches.insertionSort (scoreDesc score)
  let paginatedMatches := (sortedMatches.drop options.offset).take options.limit
  { matchList := paginatedMatches
    pagination :=
      { total := filteredMatches.length
        limit := options.limit
        offset := options.offset
        hasMore := decide (options.offset + options.limit < filteredMatches.length) } }

/-- Resolve a project's organization from the organizations table and attach
it, producing the record `calculateMatchScore` receives. -/
def attachOrganization (project : Project) (organizations : List Organization) :
    ProjectData :=
  { project with organization :=
      project.org_id.bind (fun oid => organizations.find? (fun o => o.id == oid)) }

/-- The researcher card built inside `findMatchesForProject` (note the
`hourly_rate_min || rate_min` display resolution). -/
def mkResearcherCard (researcher : Researcher) (user : User) : ResearcherCard :=
  { user_id := researcher.user_id
    name := user.name
    title := researcher.title
    affiliation := researcher.affiliation
    institution := researcher.institution
    expertise := parseCommaSeparated researcher.expertise
    methods := parseCommaSeparated researcher.methods
    domains := parseCommaSeparated researcher.domains
    tools := parseCommaSeparated researcher.tools
    research_interests := researcher.research_interests
    compliance_certifications := researcher.compliance_certifications
    rate_min := jsOrOptQ researcher.hourly_rate_min researcher.rate_min
    rate_max := jsOrOptQ researcher.hourly_rate_max researcher.rate_max
    availability := researcher.availability
    projects_completed := researcher.projects_completed }

/-- The scored candidate pool of `findMatchesForProject`: every researcher
profile whose user account is active and not deleted, scored against the
project (with its organization attached). -/
def projectCandidateMatches (project : Project) (organizations : List Organization)
    (researchers : List Researcher) (users : List User) : List ProjectMatchEntry :=
  let projectData := attachOrganization project organizations
  researchers.filterMap (fun researcher =>
    (users.find? (fun u =>
        u.id == researcher.user_id && u.account_status == "active" &&
        u.deleted_at == none)).map (fun user =>
      let scoreData := calculateMatchScore projectData researcher
      { researcher := mkResearcherCard researcher user
        matchScore := scoreData.totalScore
        scoreBreakdown := scoreData.breakdown
        strengths := scoreData.strengths
        concerns := scoreData.concerns
        hasApplied := false
        isBookmarked := false }))

/-- `findMatchesForProject`: look the project up by primary key, score the
researcher pool, and filter/sort/paginate; throws when the project is
missing. -/
def findMatchesForProject (projects : List Project) (organizations : List Organization)
    (researchers : List Researcher) (users : List User)
    (projectId : ℕ) (options : MatchOptions) :
    Except String (FindResult ProjectMatchEntry) :=
  match projects.find? (fun p => p.project_id == projectId) with
  | none => .error "Project not found"
  | some project =>
      .ok (paginateMatches ProjectMatchEntry.matchScore
        (projectCandidateMatches project organizations researchers users) options)

/-- The scored candidate pool of `findMatchesForResearcher`: every open
project (with its organization attached) scored against the researcher. -/
def researcherCandidateMatches (researcher : Researcher) (projects : List Project)
    (organizations : List Organization) : List ResearcherMatchEntry :=
  (projects.filter (fun p => p.status == "open")).map (fun project =>
    let projectData := attachOrganization project organizations
    let scoreData := calculateMatchScore projectData researcher
    { project :=
        { project_id := project.project_id
          title := project.title
          problem := project.problem
          outcomes := project.outcomes
          timeline := project.timeline
          budget_min := project.budget_min
          budget_max := project.budget_max
          methods_required := parseCommaSeparated project.methods_required
          organization := projectData.organization.map (fun o => ⟨o.id, o.name⟩) }
      matchScore := scoreData.totalScore
      scoreBreakdown := scoreData.breakdown
      strengths := scoreData.strengths
      concerns := scoreData.concerns
      hasApplied := false
      isBookmarked := false })

/-- `findMatchesForResearcher`: look the researcher profile up by user id,
score all open projects, and filter/sort/paginate; throws when the profile is
missing. -/
def findMatchesForResearcher (researchers : List Researcher) (projects : List Project)
    (organizations : List Organization)
    (researcherId : ℕ) (options : MatchOptions) :
    Except String (FindResult ResearcherMatchEntry) :=
  match researchers.find? (fun r => r.user_id == researcherId) with
  | none => .error "Researcher profile not found"
  | some researcher =>
      .ok (paginateMatches ResearcherMatchEntry.matchScore
        (researcherCandidateMatches researcher projects organizations) options)

/-! ### Explain endpoint (`matchController.js` lines 153-258) -/

/-- One factor's entry in the detailed breakdown. -/
structure FactorDetail where
  score : ℚ
  maxPoints : ℚ
  percentage : ℤ
  explanation : String
deriving DecidableEq, Inhabited

structure ExplainBreakdown where
  expertise : FactorDetail
  methods : FactorDetail
  budget : FactorDetail
  availability : FactorDetail
  experience : FactorDetail
  domain : FactorDetail
deriving DecidableEq, Inhabited

structure ExplainResult where
  totalScore : ℚ
  breakdown : ExplainBreakdown
  strengths : List String
  concerns : List String
  project_id : ℕ
  researcher_user_id : ℕ
deriving DecidableEq, Inhabited

/-- Build one `{score, max, percentage, explanation}` entry:
`percentage = Math.round((score / max) * 100)`. -/
def mkFactorDetail (score maxPoints : ℚ) (explanation : String) : FactorDetail :=
  { score := score
    maxPoints := maxPoints
    percentage := jsRound (score / maxPoints * 100)
    explanation := explanation }

/-- `explainMatch`: recompute the pair's `Match` and decorate each factor
with its maximum, rounded percentage and rationale text.  Falsy (zero) ids
are rejected up front; a missing project or researcher is a not-found
failure. -/
def explainMatch (projects : List Project) (organizations : List Organization)
    (researchers : List Researcher) (projectId researcherId : ℕ) :
    Except String ExplainResult :=
  if projectId = 0 ∨ researcherId = 0 then
    .error "Both projectId and researcherId are required"
  else
    match projects.find? (fun p => p.project_id == projectId),
        researchers.find? (fun r => r.user_id == researcherId) with
    | some project, some researcher =>
        let projectData := attachOrganization project organizations
        let scoreData := calculateMatchScore projectData researcher
        let completedStr := optIntStr researcher.projects_completed
        .ok
          { totalScore := scoreData.totalScore
            breakdown :=
              { expertise := mkFactorDetail scoreData.breakdown.expertise 30
                  "Expertise overlap based on Jaccard similarity"
                methods := mkFactorDetail scoreData.breakdown.methods 25
                  "Required methods coverage"
                budget := mkFactorDetail scoreData.breakdown.budget 15
                  "Budget compatibility based on hourly rate and estimated hours"
                availability := mkFactorDetail scoreData.breakdown.availability 10
                  "Start date alignment and capacity check"
                experience := mkFactorDetail scoreData.breakdown.experience 10
                  s!"Based on {completedStr} completed projects"
                domain := mkFactorDetail scoreData.breakdown.domain 10
                  "Research domain alignment with organization focus" }
            strengths := scoreData.strengths
            concerns := scoreData.concerns
            project_id := project.project_id
            researcher_user_id := researcher.user_id }
    | _, _ => .error "Project or researcher not found"

/-! ### Specification-side definitions

Definitions written from the specification's words (not from the source),
used to compare claimed behaviour against the embedded code, plus the
property bundle both finders are claimed to satisfy. -/

/-- The rate resolution the specification describes: `hourly_rate_*` takes
priority over `rate_*` when both exist (minimum). -/
def specHourlyPriorityRateMin (researcher : Researcher) : ℚ :=
  jsOrQ researcher.hourly_rate_min (jsOrQ researcher.rate_min 0)

/-- The rate resolution the specification describes: `hourly_rate_*` takes
priority over `rate_*` when both exist (maximum). -/
def specHourlyPriorityRateMax (researcher : Researcher) : ℚ :=
  jsOrQ researcher.hourly_rate_max (jsOrQ researcher.rate_max 0)

/-- The budget score as it would be if `calculateBudgetScore` resolved the
rate range with `hourly_rate_*` priority, as the specification claims. -/
def specBudgetScoreHourlyPriority (project : Project) (researcher : Researcher) : ℚ :=
  let projectMin := jsOrQ project.budget_min 0
  let projectMax := jsOrQ project.budget_max (jsOrQ project.budget_min 0)
  let estimatedHours := jsOrZ project.estimated_hours 100
  let rateMin := specHourlyPriorityRateMin researcher
  let rateMax := specHourlyPriorityRateMax researcher
  if projectMin = 0 ∨ rateMin = 0 then 0
  else
    round1 (checkRangeOverlap
      ⟨some projectMin, some projectMax⟩
      ⟨some (rateMin * (estimatedHours : ℚ)), some (rateMax * (estimatedHours : ℚ))⟩ * 15)

/-- The range-overlap function exactly as the specification words it: `0`
only when a bound is MISSING or the ranges do not overlap, else overlap
length over average range length, capped at `1`. -/
def specRangeOverlapMissingOnly (range1 range2 : NumRange) : ℚ :=
  match range1.min, range1.max, range2.min, range2.max with
  | some a1, some b1, some a2, some b2 =>
      let overlapLength := min b1 b2 - max a1 a2
      if overlapLength ≤ 0 then 0
      else min (overlapLength / (((b1 - a1) + (b2 - a2)) / 2)) 1
  | _, _, _, _ => 0

/-- The range-overlap specification amended to treat a zero bound like a
missing one (JavaScript falsiness). -/
def specRangeOverlap (range1 range2 : NumRange) : ℚ :=
  match range1.min, range1.max, range2.min, range2.max with
  | some a1, some b1, some a2, some b2 =>
      if a1 = 0 ∨ b1 = 0 ∨ a2 = 0 ∨ b2 = 0 then 0
      else
        let overlapLength := min b1 b2 - max a1 a2
        if overlapLength ≤ 0 then 0
        else min (overlapLength / (((b1 - a1) + (b2 - a2)) / 2)) 1
  | _, _, _, _ => 0

/-- The project budget range exactly as the specification words it:
`budget_max` defaults to `budget_min` only when ABSENT. -/
def specBudgetRangeMissingOnly (project : Project) : NumRange :=
  ⟨project.budget_min, project.budget_max.or project.budget_min⟩

/-- The estimated hours exactly as the specification words it: default 100
only when ABSENT. -/
def specEstimatedHoursMissingOnly (project : Project) : ℤ :=
  project.estimated_hours.getD 100

/-- The researcher cost range under the specification's literal reading of
the hours default. -/
def specCostRangeMissingOnly (project : Project) (researcher : Researcher) : NumRange :=
  ⟨some (resolvedRateMin researcher * (specEstimatedHoursMissingOnly project : ℚ)),
   some (resolvedRateMax researcher * (specEstimatedHoursMissingOnly project : ℚ))⟩

/-- The budget sub-score formula exactly as the specification words it. -/
def specBudgetScoreMissingOnly (project : Project) (researcher : Researcher) : ℚ :=
  round1 (checkRangeOverlap (specBudgetRangeMissingOnly project)
    (specCostRangeMissingOnly project researcher) * 15)

/-- The project budget range with the amendment: `budget_max` defaults to
`budget_min` when absent or zero. -/
def specBudgetRange (project : Project) : NumRange :=
  ⟨project.budget_min,
   if jsFalsyQ project.budget_max then project.budget_min else project.budget_max⟩

/-- The estimated hours with the amendment: default 100 when absent or
zero. -/
def specEstimatedHours (project : Project) : ℤ :=
  jsOrZ project.estimated_hours 100

/-- The researcher cost range: resolved rate range times estimated hours. -/
def specCostRange (project : Project) (researcher : Researcher) : NumRange :=
  ⟨some (resolvedRateMin researcher * (specEstimatedHours project : ℚ)),
   some (resolvedRateMax researcher * (specEstimatedHours project : ℚ))⟩

/-- The property bundle the finder claim states about one finder run, for a
candidate pool `pool` scored by `score`: minScore filtering, stable
descending sort, slicing window and pagination counters. -/
def C2Props {α : Type} (score : α → ℚ) (pool : List α) (options : MatchOptions)
    (R : FindResult α) : Prop :=
  let filtered := pool.filter (fun m => options.minScore ≤ score m)
  let sortedAll := filtered.insertionSort (scoreDesc score)
  R.matchList = (sortedAll.drop options.offset).take options.limit ∧
  (∀ m ∈ R.matchList, options.minScore ≤ score m) ∧
  R.matchList.Sorted (scoreDesc score) ∧
  (∀ s : ℚ, sortedAll.filter (fun m => decide (score m = s)) =
    filtered.filter (fun m => decide (score m = s))) ∧
  R.pagination.total = filtered.length ∧
  R.pagination.limit = options.limit ∧
  R.pagination.offset = options.offset ∧
  (R.pagination.hasMore = true ↔ options.offset + options.limit < filtered.length) ∧
  ((∀ m ∈ pool, score m < options.minScore) → R.matchList = [] ∧ R.pagination.total = 0)

/-! ### Sample records for concrete instances -/

/-- A project row with every nullable column `NULL`. -/
def blankProject : Project :=
  { project_id := 0
    title := "Untitled"
    problem := none
    outcomes := none
    timeline := none
    methods_required := none
    budget_min := none
    budget_max := none
    estimated_hours := none
    start_date := none
    org_id := none
    status := "open" }

/-- A researcher profile row with every nullable column `NULL`. -/
def blankResearcher : Researcher :=
  { user_id := 0
    title := none
    affiliation := none
    institution := none
    expertise := none
    methods := none
    domains := none
    tools := none
    research_interests := none
    compliance_certifications := none
    rate_min := none
    rate_max := none
    hourly_rate_min := none
    hourly_rate_max := none
    availability := none
    available_start_date := none
    current_projects_count := none
    max_concurrent_projects := none
    projects_completed := none }

/-- Researcher with both rate-field pairs populated (positive, distinct). -/
def c3Researcher : Researcher :=
  { blankResearcher with
    user_id := 7
    rate_min := some 10
    rate_max := some 20
    hourly_rate_min := some 30
    hourly_rate_max := some 40 }

/-- Project whose budget exactly matches `c3Researcher`'s hourly-priority
cost range over 100 hours. -/
def c3Project : Project :=
  { blankProject with
    project_id := 1
    budget_min := some 3000
    budget_max := some 4000
    estimated_hours := some 100 }

/-- Project with `estimated_hours = 0` (falsy but present). -/
def c4Project : Project :=
  { blankProject with
    project_id := 2
    budget_min := some 1000
    budget_max := some 2000
    estimated_hours := some 0 }

/-- Researcher whose default-hours cost range matches `c4Project`'s budget. -/
def c4Researcher : Researcher :=
  { blankResearcher with
    user_id := 8
    rate_min := some 10
    rate_max := some 20 }

/-- Researcher with a degenerate (single point) rate range. -/
def c10Researcher : Researcher :=
  { blankResearcher with
    user_id := 9
    rate_min := some 10
    rate_max := some 10 }

/-- Project whose budget range strictly contains `c10Researcher`'s cost of
10 × 100 = 1000. -/
def c10Project : Project :=
  { blankProject with
    project_id := 3
    budget_min := some 500
    budget_max := some 2000 }

/-- Sample organization. -/
def wOrganization : Organization :=
  { id := 5, name := "Health Org", focus_areas := some "health,education" }

/-- Sample open project used by the finder and explain instances. -/
def wProject : Project :=
  { blankProject with
    project_id := 1
    title := "Community survey"
    problem := some "health,survey design"
    methods_required := some "survey"
    budget_min := some 1000
    budget_max := some 2000
    org_id := some 5
    status := "open" }

/-- Sample researcher matching `wProject` well. -/
def wResearcher1 : Researcher :=
  { blankResearcher with
    user_id := 7
    expertise := some "health,survey design"
    methods := some "survey"
    domains := some "health"
    rate_min := some 10
    rate_max := some 20
    projects_completed := some 7 }

/-- Sample researcher with an empty profile. -/
def wResearcher2 : Researcher :=
  { blankResearcher with user_id := 8 }

/-- Active user account for `wResearcher1`. -/
def wUser1 : User :=
  { id := 7, name := "Alice", email := "alice@example.org",
    account_status := "active", deleted_at := none }

/-- Active user account for `wResearcher2`. -/
def wUser2 : User :=
  { id := 8, name := "Bob", email := "bob@example.org",
    account_status := "active", deleted_at := none }

/-- Options instance with an attainable minimum score. -/
def wOptions : MatchOptions :=
  { limit := 20, offset := 0, minScore := 0 }

/-- The concrete explain payload for `wProject`/`wResearcher1`. -/
def wExplainResult : ExplainResult :=
  (explainMatch [wProject] [wOrganization] [wResearcher1, wResearcher2] 1 7).toOption.getD
    default

/-! ### Arithmetic helper lemmas -/

theorem jsRound_nonneg {q : ℚ} (h : 0 ≤ q) : 0 ≤ jsRound q := by
  have : (0 : ℚ) ≤ q + 1/2 := by linarith
  exact Int.floor_nonneg.mpr this

theorem jsRound_le_int {q : ℚ} {n : ℤ} (h : q ≤ (n : ℚ)) : jsRound q ≤ n := by
  have h1 : jsRound q ≤ jsRound (n : ℚ) := Int.floor_le_floor (by linarith)
  have h2 : jsRound ((n : ℚ)) = n := by
    unfold jsRound
    rw [Int.floor_int_add]
    norm_num
  omega

theorem round1_nonneg {q : ℚ} (h : 0 ≤ q) : 0 ≤ round1 q := by
  unfold round1
  have : (0 : ℤ) ≤ jsRound (q * 10) := jsRound_nonneg (by linarith)
  positivity

theorem round1_le_int {q : ℚ} {n : ℤ} (h : q ≤ (n : ℚ)) : round1 q ≤ (n : ℚ) := by
  unfold round1
  have h1 : jsRound (q * 10) ≤ n * 10 := by
    apply jsRound_le_int
    push_cast
    linarith
  rw [div_le_iff₀ (by norm_num : (0:ℚ) < 10)]
  calc ((jsRound (q * 10) : ℤ) : ℚ) ≤ ((n * 10 : ℤ) : ℚ) := by exact_mod_cast h1
    _ = (n : ℚ) * 10 := by push_cast; ring

theorem calculateJaccardSimilarity_nonneg (s t : List String) :
    0 ≤ calculateJaccardSimilarity s t := by
  unfold calculateJaccardSimilarity
  dsimp only
  split_ifs with h1 h2
  · exact le_refl 0
  · exact le_refl 0
  · positivity

theorem calculateJaccardSimilarity_le_one (s t : List String) :
    calculateJaccardSimilarity s t ≤ 1 := by
  unfold calculateJaccardSimilarity
  dsimp only
  split_ifs with h1 h2
  · norm_num
  · norm_num
  · have hcard : (s.toFinset ∩ t.toFinset).card ≤ (s.toFinset ∪ t.toFinset).card :=
      Finset.card_le_card Finset.inter_subset_union
    have hs : s.toFinset.card ≠ 0 := by
      intro h
      exact h2 (Or.inl h)
    have hu : 0 < (s.toFinset ∪ t.toFinset).card := by
      have : s.toFinset.card ≤ (s.toFinset ∪ t.toFinset).card :=
        Finset.card_le_card Finset.subset_union_left
      omega
    rw [div_le_one (by exact_mod_cast hu)]
    exact_mod_cast hcard

theorem checkRangeOverlap_nonneg (r1 r2 : NumRange) :
    0 ≤ checkRangeOverlap r1 r2 := by
  unfold checkRangeOverlap
  dsimp only
  split_ifs with h1 h2
  · exact le_refl 0
  · exact le_refl 0
  · apply le_min _ (by norm_num)
    have hlt : max (r1.min.getD 0) (r2.min.getD 0) < min (r1.max.getD 0) (r2.max.getD 0) := by
      exact lt_of_not_le h2
    have h1' : r1.min.getD 0 ≤ max (r1.min.getD 0) (r2.min.getD 0) := le_max_left _ _
    have h2' : min (r1.max.getD 0) (r2.max.getD 0) ≤ r1.max.getD 0 := min_le_left _ _
    have h3' : r2.min.getD 0 ≤ max (r1.min.getD 0) (r2.min.getD 0) := le_max_right _ _
    have h4' : min (r1.max.getD 0) (r2.max.getD 0) ≤ r2.max.getD 0 := min_le_right _ _
    apply div_nonneg (by linarith)
    linarith

theorem checkRangeOverlap_le_one (r1 r2 : NumRange) :
    checkRangeOverlap r1 r2 ≤ 1 := by
  unfold checkRangeOverlap
  dsimp only
  split_ifs with h1 h2
  · norm_num
  · norm_num
  · exact min_le_right _ _

/-! ### Sub-score bounds -/

theorem calculateExpertiseScore_bounds (a b : Option String) :
    0 ≤ calculateExpertiseScore a b ∧ calculateExpertiseScore a b ≤ 30 := by
  unfold calculateExpertiseScore
  dsimp only
  split_ifs with h
  · norm_num
  · constructor
    · apply round1_nonneg
      have := calculateJaccardSimilarity_nonneg (parseCommaSeparated a) (parseCommaSeparated b)
      linarith
    · have h30 : calculateJaccardSimilarity (parseCommaSeparated a) (parseCommaSeparated b) * 30 ≤
        ((30 : ℤ) : ℚ) := by
        have := calculateJaccardSimilarity_le_one (parseCommaSeparated a) (parseCommaSeparated b)
        push_cast
        linarith
      have := round1_le_int h30
      exact_mod_cast this

theorem calculateMethodsScore_bounds (a b : Option String) :
    0 ≤ calculateMethodsScore a b ∧ calculateMethodsScore a b ≤ 25 := by
  unfold calculateMethodsScore
  dsimp only
  split_ifs with h1 h2
  · norm_num
  · norm_num
  · have hlen : ((parseCommaSeparated a).filter (fun m => m ∈ parseCommaSeparated b)).length ≤
      (parseCommaSeparated a).length := List.length_filter_le _ _
    have hpos : 0 < (parseCommaSeparated a).length := by
      cases hc : parseCommaSeparated a with
      | nil => exact absurd hc h1
      | cons x xs => simp
    have hfrac0 : (0 : ℚ) ≤
        (((parseCommaSeparated a).filter (fun m => m ∈ parseCommaSeparated b)).length : ℚ) /
          ((parseCommaSeparated a).length : ℚ) := by positivity
    have hfrac1 : (((parseCommaSeparated a).filter (fun m => m ∈ parseCommaSeparated b)).length : ℚ) /
        ((parseCommaSeparated a).length : ℚ) ≤ 1 := by
      rw [div_le_one (by exact_mod_cast hpos)]
      exact_mod_cast hlen
    constructor
    · apply round1_nonneg
      linarith
    · have h25 : (((parseCommaSeparated a).filter (fun m => m ∈ parseCommaSeparated b)).length : ℚ) /
        ((parseCommaSeparated a).length : ℚ) * 25 ≤ ((25 : ℤ) : ℚ) := by
        push_cast
        linarith
      have := round1_le_int h25
      exact_mod_cast this

theorem calculateBudgetScore_bounds (p : Project) (r : Researcher) :
    0 ≤ calculateBudgetScore p r ∧ calculateBudgetScore p r ≤ 15 := by
  unfold calculateBudgetScore
  dsimp only
  split_ifs with h
  · norm_num
  · constructor
    · apply round1_nonneg
      have := checkRangeOverlap_nonneg
        ⟨some (jsOrQ p.budget_min 0), some (jsOrQ p.budget_max (jsOrQ p.budget_min 0))⟩
        ⟨some (resolvedRateMin r * (jsOrZ p.estimated_hours 100 : ℚ)),
         some (resolvedRateMax r * (jsOrZ p.estimated_hours 100 : ℚ))⟩
      linarith
    · have h15 : checkRangeOverlap
        ⟨some (jsOrQ p.budget_min 0), some (jsOrQ p.budget_max (jsOrQ p.budget_min 0))⟩
        ⟨some (resolvedRateMin r * (jsOrZ p.estimated_hours 100 : ℚ)),
         some (resolvedRateMax r * (jsOrZ p.estimated_hours 100 : ℚ))⟩ * 15 ≤ ((15 : ℤ) : ℚ) := by
        have := checkRangeOverlap_le_one
          ⟨some (jsOrQ p.budget_min 0), some (jsOrQ p.budget_max (jsOrQ p.budget_min 0))⟩
          ⟨some (resolvedRateMin r * (jsOrZ p.estimated_hours 100 : ℚ)),
           some (resolvedRateMax r * (jsOrZ p.estimated_hours 100 : ℚ))⟩
        push_cast
        linarith
      have := round1_le_int h15
      exact_mod_cast this

theorem calculateAvailabilityScore_bounds (p : Project) (r : Researcher) :
    0 ≤ calculateAvailabilityScore p r ∧ calculateAvailabilityScore p r ≤ 10 := by
  unfold calculateAvailabilityScore
  dsimp only
  rcases p.start_date with _ | ps <;> rcases r.available_start_date with _ | ra <;>
    dsimp only <;> split_ifs <;> norm_num

theorem calculateExperienceScore_bounds (c : Option ℤ) :
    0 ≤ calculateExperienceScore c ∧ calculateExperienceScore c ≤ 10 := by
  unfold calculateExperienceScore
  dsimp only
  split_ifs <;> norm_num

theorem calculateDomainScore_bounds (a b : Option String) :
    0 ≤ calculateDomainScore a b ∧ calculateDomainScore a b ≤ 10 := by
  unfold calculateDomainScore
  dsimp only
  split_ifs with h
  · norm_num
  · constructor
    · apply round1_nonneg
      have := calculateJaccardSimilarity_nonneg (parseCommaSeparated a) (parseCommaSeparated b)
      linarith
    · have h10 : calculateJaccardSimilarity (parseCommaSeparated a) (parseCommaSeparated b) * 10 ≤
        ((10 : ℤ) : ℚ) := by
        have := calculateJaccardSimilarity_le_one (parseCommaSeparated a) (parseCommaSeparated b)
        push_cast
        linarith
      have := round1_le_int h10
      exact_mod_cast this

/-! ### Claim theorems -/

/-- C1: for every project record and researcher record, `calculateMatchScore`
returns a `Match` whose `totalScore` is the unweighted sum of the six
sub-scores (expertise, methods, budget, availability, experience, domain)
rounded to one decimal place, each sub-score lies within `[0, max]` for the
per-factor maxima 30/25/15/10/10/10, and `0 ≤ totalScore ≤ 100`. -/
theorem calculateMatchScore_invariant (p : ProjectData) (r : Researcher) :
    (calculateMatchScore p r).totalScore =
      round1 ((calculateMatchScore p r).breakdown.expertise +
        (calculateMatchScore p r).breakdown.methods +
        (calculateMatchScore p r).breakdown.budget +
        (calculateMatchScore p r).breakdown.availability +
        (calculateMatchScore p r).breakdown.experience +
        (calculateMatchScore p r).breakdown.domain) ∧
    (0 ≤ (calculateMatchScore p r).breakdown.expertise ∧
      (calculateMatchScore p r).breakdown.expertise ≤ 30) ∧
    (0 ≤ (calculateMatchScore p r).breakdown.methods ∧
      (calculateMatchScore p r).breakdown.methods ≤ 25) ∧
    (0 ≤ (calculateMatchScore p r).breakdown.budget ∧
      (calculateMatchScore p r).breakdown.budget ≤ 15) ∧
    (0 ≤ (calculateMatchScore p r).breakdown.availability ∧
      (calculateMatchScore p r).breakdown.availability ≤ 10) ∧
    (0 ≤ (calculateMatchScore p r).breakdown.experience ∧
      (calculateMatchScore p r).breakdown.experience ≤ 10) ∧
    (0 ≤ (calculateMatchScore p r).breakdown.domain ∧
      (calculateMatchScore p r).breakdown.domain ≤ 10) ∧
    (0 ≤ (calculateMatchScore p r).totalScore ∧
      (calculateMatchScore p r).totalScore ≤ 100) := by
  have he := calculateExpertiseScore_bounds
    (some (jsOrS p.problem (jsOrS p.outcomes ""))) r.expertise
  have hm := calculateMethodsScore_bounds p.methods_required r.methods
  have hbu := calculateBudgetScore_bounds p.toProject r
  have hav := calculateAvailabilityScore_bounds p.toProject r
  have hex := calculateExperienceScore_bounds r.projects_completed
  have hdo := calculateDomainScore_bounds
    (p.organization.bind Organization.focus_areas) r.domains
  have hbreak : (calculateMatchScore p r).breakdown =
      { expertise := calculateExpertiseScore
          (some (jsOrS p.problem (jsOrS p.outcomes ""))) r.expertise
        methods := calculateMethodsScore p.methods_required r.methods
        budget := calculateBudgetScore p.toProject r
        availability := calculateAvailabilityScore p.toProject r
        experience := calculateExperienceScore r.projects_completed
        domain := calculateDomainScore
          (p.organization.bind Organization.focus_areas) r.domains } := rfl
  have htot : (calculateMatchScore p r).totalScore =
      round1 ((calculateMatchScore p r).breakdown.expertise +
        (calculateMatchScore p r).breakdown.methods +
        (calculateMatchScore p r).breakdown.budget +
        (calculateMatchScore p r).breakdown.availability +
        (calculateMatchScore p r).breakdown.experience +
        (calculateMatchScore p r).breakdown.domain) := rfl
  refine ⟨htot, ⟨?_, ?_⟩, ⟨?_, ?_⟩, ⟨?_, ?_⟩, ⟨?_, ?_⟩, ⟨?_, ?_⟩, ⟨?_, ?_⟩, ?_, ?_⟩
  · rw [hbreak]; exact he.1
  · rw [hbreak]; exact he.2
  · rw [hbreak]; exact hm.1
  · rw [hbreak]; exact hm.2
  · rw [hbreak]; exact hbu.1
  · rw [hbreak]; exact hbu.2
  · rw [hbreak]; exact hav.1
  · rw [hbreak]; exact hav.2
  · rw [hbreak]; exact hex.1
  · rw [hbreak]; exact hex.2
  · rw [hbreak]; exact hdo.1
  · rw [hbreak]; exact hdo.2
  · rw [htot, hbreak]
    apply round1_nonneg
    dsimp only
    linarith [he.1, hm.1, hbu.1, hav.1, hex.1, hdo.1]
  · rw [htot, hbreak]
    have h100 : calculateExpertiseScore
        (some (jsOrS p.problem (jsOrS p.outcomes ""))) r.expertise +
        calculateMethodsScore p.methods_required r.methods +
        calculateBudgetScore p.toProject r +
        calculateAvailabilityScore p.toProject r +
        calculateExperienceScore r.projects_completed +
        calculateDomainScore (p.organization.bind Organization.focus_areas) r.domains ≤
        ((100 : ℤ) : ℚ) := by
      push_cast
      linarith [he.2, hm.2, hbu.2, hav.2, hex.2, hdo.2]
    have := round1_le_int h100
    dsimp only
    exact_mod_cast this

theorem round1_zero : round1 0 = 0 := by
  norm_num [round1, jsRound]

/-- C5 counterexample: on `{min: 0, max: 10}` versus itself the code returns
`0` (a zero bound is falsy), while the claim's reading — `0` only for a
missing bound or disjoint ranges, else the overlap formula — yields `1`. -/
theorem checkRangeOverlap_zero_bound_counterexample :
    checkRangeOverlap ⟨some 0, some 10⟩ ⟨some 0, some 10⟩ = 0 ∧
    specRangeOverlapMissingOnly ⟨some 0, some 10⟩ ⟨some 0, some 10⟩ = 1 ∧
    (0 : ℚ) ≠ 1 := by
  refine ⟨by decide, ?_, by norm_num⟩
  norm_num [specRangeOverlapMissingOnly]

/-- C5 (amended): `checkRangeOverlap` returns `0` if either range is
degenerate (`min`/`max` missing OR ZERO) or the ranges do not overlap, and
otherwise returns overlap length divided by the average of the two range
lengths, capped at 1; and
`checkRangeOverlap {min:10,max:20} {min:15,max:25} = 0.5`. -/
theorem checkRangeOverlap_spec :
    (∀ range1 range2 : NumRange,
      checkRangeOverlap range1 range2 = specRangeOverlap range1 range2) ∧
    checkRangeOverlap ⟨some 10, some 20⟩ ⟨some 15, some 25⟩ = 1/2 := by
  constructor
  · have hmain : ∀ a1 b1 a2 b2 : ℚ,
        checkRangeOverlap ⟨some a1, some b1⟩ ⟨some a2, some b2⟩ =
          specRangeOverlap ⟨some a1, some b1⟩ ⟨some a2, some b2⟩ := by
      intro a1 b1 a2 b2
      by_cases h0 : a1 = 0 ∨ b1 = 0 ∨ a2 = 0 ∨ b2 = 0
      · have hcode : checkRangeOverlap ⟨some a1, some b1⟩ ⟨some a2, some b2⟩ = 0 := by
          unfold checkRangeOverlap
          dsimp only
          rw [if_pos (by
            simp only [jsFalsyQ, Option.getD, Bool.or_eq_true, decide_eq_true_eq]
            tauto)]
        have hspec : specRangeOverlap ⟨some a1, some b1⟩ ⟨some a2, some b2⟩ = 0 := by
          unfold specRangeOverlap
          dsimp only
          rw [if_pos h0]
        rw [hcode, hspec]
      · push_neg at h0
        obtain ⟨h1, h2, h3, h4⟩ := h0
        have hcode : checkRangeOverlap ⟨some a1, some b1⟩ ⟨some a2, some b2⟩ =
            if min b1 b2 ≤ max a1 a2 then (0 : ℚ)
            else min ((min b1 b2 - max a1 a2) / (((b1 - a1) + (b2 - a2)) / 2)) 1 := by
          unfold checkRangeOverlap
          dsimp only
          rw [if_neg (by
            simp only [jsFalsyQ, Option.getD, Bool.or_eq_true, decide_eq_true_eq]
            tauto)]
          simp only [Option.getD_some]
        have hspec : specRangeOverlap ⟨some a1, some b1⟩ ⟨some a2, some b2⟩ =
            if min b1 b2 - max a1 a2 ≤ 0 then (0 : ℚ)
            else min ((min b1 b2 - max a1 a2) / (((b1 - a1) + (b2 - a2)) / 2)) 1 := by
          unfold specRangeOverlap
          dsimp only
          rw [if_neg (by tauto)]
        rw [hcode, hspec]
        rcases le_or_lt (min b1 b2) (max a1 a2) with hle | hlt
        · rw [if_pos hle, if_pos (sub_nonpos.mpr hle)]
        · rw [if_neg (not_le.mpr hlt),
            if_neg (fun h => absurd (sub_nonpos.mp h) (not_le.mpr hlt))]
    intro range1 range2
    obtain ⟨m1, M1⟩ := range1
    obtain ⟨m2, M2⟩ := range2
    rcases m1 with _ | a1 <;> rcases M1 with _ | b1 <;>
      rcases m2 with _ | a2 <;> rcases M2 with _ | b2
    case some.some.some.some => exact hmain a1 b1 a2 b2
    all_goals simp [checkRangeOverlap, specRangeOverlap, jsFalsyQ]
  · norm_num [checkRangeOverlap, jsFalsyQ]

/-- C6: `calculateJaccardSimilarity` computes `|A∩B| / |A∪B|` over the
deduplicated string sets, lies in `[0,1]`, returns `0` when either set is
empty, and gives `1/3` on `{"a","b"}` and `{"b","c"}`. -/
theorem calculateJaccardSimilarity_spec (s t : List String) :
    calculateJaccardSimilarity s t =
      ((s.toFinset ∩ t.toFinset).card : ℚ) / ((s.toFinset ∪ t.toFinset).card : ℚ) ∧
    0 ≤ calculateJaccardSimilarity s t ∧
    calculateJaccardSimilarity s t ≤ 1 ∧
    (s.toFinset = ∅ ∨ t.toFinset = ∅ → calculateJaccardSimilarity s t = 0) ∧
    calculateJaccardSimilarity ["a", "b"] ["b", "c"] = 1/3 := by
  have hform : ∀ u v : List String, calculateJaccardSimilarity u v =
      ((u.toFinset ∩ v.toFinset).card : ℚ) / ((u.toFinset ∪ v.toFinset).card : ℚ) := by
    intro u v
    unfold calculateJaccardSimilarity
    dsimp only
    split_ifs with h1 h2
    · obtain ⟨hs, _⟩ := h1
      rw [Finset.card_eq_zero] at hs
      rw [hs]
      simp
    · rcases h2 with hs | ht
      · rw [Finset.card_eq_zero] at hs
        rw [hs]
        simp
      · rw [Finset.card_eq_zero] at ht
        rw [ht]
        simp
    · rfl
  have hex : calculateJaccardSimilarity ["a", "b"] ["b", "c"] = 1/3 := by
    have hi : (((["a", "b"] : List String).toFinset ∩
        (["b", "c"] : List String).toFinset).card) = 1 := by decide
    have hu : (((["a", "b"] : List String).toFinset ∪
        (["b", "c"] : List String).toFinset).card) = 3 := by decide
    rw [hform, hi, hu]
    norm_num
  refine ⟨hform s t, calculateJaccardSimilarity_nonneg s t,
    calculateJaccardSimilarity_le_one s t, ?_, hex⟩
  intro h
  rw [hform]
  rcases h with h | h <;> rw [h] <;> simp

/-- C6 witness: both empty-set clauses at concrete inputs. -/
theorem calculateJaccardSimilarity_spec_witness :
    (([] : List String).toFinset = ∅ ∨ ["a"].toFinset = ∅) ∧
    calculateJaccardSimilarity [] ["a"] = 0 :=
  ⟨Or.inl (by decide), ((calculateJaccardSimilarity_spec [] ["a"]).2.2.2.1
    (Or.inl (by decide)))⟩

/-- C7: the methods sub-score is 25 when the project requires no parseable
methods, 0 when it does but the researcher lists none, and otherwise
(matched / required) × 25 rounded to one decimal; `"survey,interview"`
against `"survey"` scores 12.5. -/
theorem calculateMethodsScore_spec (req avail : Option String) :
    (parseCommaSeparated req = [] → calculateMethodsScore req avail = 25) ∧
    (parseCommaSeparated req ≠ [] → parseCommaSeparated avail = [] →
      calculateMethodsScore req avail = 0) ∧
    (parseCommaSeparated req ≠ [] → parseCommaSeparated avail ≠ [] →
      calculateMethodsScore req avail =
        round1 ((((parseCommaSeparated req).filter
            (fun m => m ∈ parseCommaSeparated avail)).length : ℚ) /
          ((parseCommaSeparated req).length : ℚ) * 25)) ∧
    calculateMethodsScore (some "survey,interview") (some "survey") = 25/2 := by
  have hgen : ∀ a b : Option String,
      (parseCommaSeparated a = [] → calculateMethodsScore a b = 25) ∧
      (parseCommaSeparated a ≠ [] → parseCommaSeparated b = [] →
        calculateMethodsScore a b = 0) ∧
      (parseCommaSeparated a ≠ [] → parseCommaSeparated b ≠ [] →
        calculateMethodsScore a b =
          round1 ((((parseCommaSeparated a).filter
              (fun m => m ∈ parseCommaSeparated b)).length : ℚ) /
            ((parseCommaSeparated a).length : ℚ) * 25)) := by
    intro a b
    refine ⟨?_, ?_, ?_⟩
    · intro h
      unfold calculateMethodsScore
      dsimp only
      rw [if_pos h]
    · intro h1 h2
      unfold calculateMethodsScore
      dsimp only
      rw [if_neg h1, if_pos h2]
    · intro h1 h2
      unfold calculateMethodsScore
      dsimp only
      rw [if_neg h1, if_neg h2]
  have hreq : parseCommaSeparated (some "survey,interview") = ["survey", "interview"] := by
    decide
  have hav : parseCommaSeparated (some "survey") = ["survey"] := by decide
  have hfil : (["survey", "interview"] : List String).filter
      (fun m => m ∈ (["survey"] : List String)) = ["survey"] := by decide
  have hex : calculateMethodsScore (some "survey,interview") (some "survey") = 25/2 := by
    rw [(hgen (some "survey,interview") (some "survey")).2.2
      (by rw [hreq]; simp) (by rw [hav]; simp)]
    rw [hreq, hav, hfil]
    norm_num [round1, jsRound]
  exact ⟨(hgen req avail).1, (hgen req avail).2.1, (hgen req avail).2.2, hex⟩

/-- C7 witness: the three clauses at concrete inputs. -/
theorem calculateMethodsScore_spec_witness :
    (parseCommaSeparated (none : Option String) = [] ∧
      calculateMethodsScore none (some "survey") = 25) ∧
    (parseCommaSeparated (some "survey") ≠ [] ∧ parseCommaSeparated none = [] ∧
      calculateMethodsScore (some "survey") none = 0) ∧
    (calculateMethodsScore (some "survey,interview") (some "survey") = 25/2) :=
  ⟨⟨by decide, (calculateMethodsScore_spec none (some "survey")).1 (by decide)⟩,
   ⟨by decide, by decide,
    (calculateMethodsScore_spec (some "survey") none).2.1 (by decide) (by decide)⟩,
   (calculateMethodsScore_spec (some "survey,interview") (some "survey")).2.2.2⟩

theorem jsOrQ_zero_getD (a : Option ℚ) : jsOrQ a 0 = a.getD 0 := by
  rcases a with _ | x
  · rfl
  · by_cases h : x = 0
    · simp [jsOrQ, h]
    · simp [jsOrQ, h]

theorem checkRangeOverlap_falsy_min₁ (r1 r2 : NumRange) (h : jsFalsyQ r1.min = true) :
    checkRangeOverlap r1 r2 = 0 := by
  unfold checkRangeOverlap
  rw [if_pos (by simp [h])]

theorem checkRangeOverlap_falsy_min₂ (r1 r2 : NumRange) (h : jsFalsyQ r2.min = true) :
    checkRangeOverlap r1 r2 = 0 := by
  unfold checkRangeOverlap
  rw [if_pos (by simp [h])]

/-- C10: whenever the researcher's resolved rate range is a single positive
point, the budget sub-score is `0` — the overlap test requires the overlap's
lower bound to be strictly below its upper bound, so a degenerate cost range
never counts as overlapping, even when the cost lies strictly inside the
project's budget range. -/
theorem calculateBudgetScore_degenerate_rate (p : Project) (r : Researcher)
    (heq : resolvedRateMin r = resolvedRateMax r) (hpos : 0 < resolvedRateMin r) :
    calculateBudgetScore p r = 0 := by
  unfold calculateBudgetScore
  dsimp only
  split_ifs with h
  · rfl
  · have hover : checkRangeOverlap
        ⟨some (jsOrQ p.budget_min 0), some (jsOrQ p.budget_max (jsOrQ p.budget_min 0))⟩
        ⟨some (resolvedRateMin r * (jsOrZ p.estimated_hours 100 : ℚ)),
         some (resolvedRateMax r * (jsOrZ p.estimated_hours 100 : ℚ))⟩ = 0 := by
      unfold checkRangeOverlap
      dsimp only
      split_ifs with h1 h2
      · rfl
      · rfl
      · exfalso
        apply h2
        simp only [Option.getD_some]
        calc min (jsOrQ p.budget_max (jsOrQ p.budget_min 0))
              (resolvedRateMax r * (jsOrZ p.estimated_hours 100 : ℚ)) ≤
              resolvedRateMax r * (jsOrZ p.estimated_hours 100 : ℚ) := min_le_right _ _
          _ = resolvedRateMin r * (jsOrZ p.estimated_hours 100 : ℚ) := by rw [heq]
          _ ≤ max (jsOrQ p.budget_min 0)
              (resolvedRateMin r * (jsOrZ p.estimated_hours 100 : ℚ)) := le_max_right _ _
    rw [hover]
    norm_num [round1, jsRound]

/-- C10 witness: a flat rate of 10 over the default 100 hours costs 1000,
strictly inside the 500-2000 budget, yet scores 0. -/
theorem calculateBudgetScore_degenerate_rate_witness :
    resolvedRateMin c10Researcher = resolvedRateMax c10Researcher ∧
    0 < resolvedRateMin c10Researcher ∧
    jsOrQ c10Project.budget_min 0 <
      resolvedRateMin c10Researcher * (jsOrZ c10Project.estimated_hours 100 : ℚ) ∧
    resolvedRateMin c10Researcher * (jsOrZ c10Project.estimated_hours 100 : ℚ) <
      jsOrQ c10Project.budget_max 0 ∧
    calculateBudgetScore c10Project c10Researcher = 0 := by
  have h1 : resolvedRateMin c10Researcher = resolvedRateMax c10Researcher := by
    norm_num [resolvedRateMin, resolvedRateMax, c10Researcher, blankResearcher, jsOrQ]
  have h2 : 0 < resolvedRateMin c10Researcher := by
    norm_num [resolvedRateMin, c10Researcher, blankResearcher, jsOrQ]
  refine ⟨h1, h2, ?_, ?_, calculateBudgetScore_degenerate_rate c10Project c10Researcher h1 h2⟩
  · norm_num [resolvedRateMin, c10Researcher, c10Project, blankResearcher, blankProject,
      jsOrQ, jsOrZ]
  · norm_num [resolvedRateMin, c10Researcher, c10Project, blankResearcher, blankProject,
      jsOrQ, jsOrZ]

/-- C3 counterexample: with both rate-field pairs populated (10-20 and 30-40)
`calculateBudgetScore` resolves 10-20 — the `rate_*` fields, not the
`hourly_rate_*` alias the claim names — observable in the score: 0 against a
budget that exactly matches the hourly-priority cost range (which would give
15). -/
theorem budgetRatePriority_counterexample :
    c3Researcher.rate_min = some 10 ∧ c3Researcher.rate_max = some 20 ∧
    c3Researcher.hourly_rate_min = some 30 ∧ c3Researcher.hourly_rate_max = some 40 ∧
    resolvedRateMin c3Researcher = 10 ∧ resolvedRateMax c3Researcher = 20 ∧
    specHourlyPriorityRateMin c3Researcher = 30 ∧
    specHourlyPriorityRateMax c3Researcher = 40 ∧
    calculateBudgetScore c3Project c3Researcher = 0 ∧
    specBudgetScoreHourlyPriority c3Project c3Researcher = 15 ∧
    (0 : ℚ) ≠ 15 := by
  refine ⟨rfl, rfl, rfl, rfl, by decide, by decide, by decide, by decide, ?_, ?_,
    by norm_num⟩
  · norm_num [calculateBudgetScore, resolvedRateMin, resolvedRateMax, c3Project,
      c3Researcher, blankProject, blankResearcher, jsOrQ, jsOrZ, checkRangeOverlap,
      jsFalsyQ, round1, jsRound]
  · norm_num [specBudgetScoreHourlyPriority, specHourlyPriorityRateMin,
      specHourlyPriorityRateMax, c3Project, c3Researcher, blankProject, blankResearcher,
      jsOrQ, jsOrZ, checkRangeOverlap, jsFalsyQ, round1, jsRound]

/-- C3 (amended): when the `rate_min`/`rate_max` fields are populated with
positive values, `calculateBudgetScore` resolves the rate range from them;
the `hourly_rate_*` fields are only a fallback, so they are ignored even when
also populated. -/
theorem resolvedRate_ratePriority (r : Researcher) (a b : ℚ)
    (hmin : r.rate_min = some a) (hmax : r.rate_max = some b)
    (ha : 0 < a) (hb : 0 < b) :
    resolvedRateMin r = a ∧ resolvedRateMax r = b := by
  have hane : a ≠ 0 := ne_of_gt ha
  have hbne : b ≠ 0 := ne_of_gt hb
  constructor
  · simp [resolvedRateMin, jsOrQ, hmin, hane]
  · simp [resolvedRateMax, jsOrQ, hmax, hbne]

/-- C3 witness: the amended resolution at `c3Researcher`. -/
theorem resolvedRate_ratePriority_witness :
    c3Researcher.rate_min = some 10 ∧ c3Researcher.rate_max = some 20 ∧
    (0 : ℚ) < 10 ∧ (0 : ℚ) < 20 ∧
    resolvedRateMin c3Researcher = 10 ∧ resolvedRateMax c3Researcher = 20 :=
  ⟨rfl, rfl, by norm_num, by norm_num,
   (resolvedRate_ratePriority c3Researcher 10 20 rfl rfl (by norm_num) (by norm_num)).1,
   (resolvedRate_ratePriority c3Researcher 10 20 rfl rfl (by norm_num) (by norm_num)).2⟩

/-- C4 counterexample: with `estimated_hours = 0` (present but falsy) the
code substitutes 100 hours and scores 15, while the claim's formula — hours
defaulting only when ABSENT — yields a zero-width cost range and score 0. -/
theorem budgetHoursDefault_counterexample :
    c4Project.estimated_hours = some 0 ∧
    calculateBudgetScore c4Project c4Researcher = 15 ∧
    specBudgetScoreMissingOnly c4Project c4Researcher = 0 ∧
    (15 : ℚ) ≠ 0 := by
  refine ⟨rfl, ?_, ?_, by norm_num⟩
  · norm_num [calculateBudgetScore, resolvedRateMin, resolvedRateMax, c4Project,
      c4Researcher, blankProject, blankResearcher, jsOrQ, jsOrZ, checkRangeOverlap,
      jsFalsyQ, round1, jsRound]
  · norm_num [specBudgetScoreMissingOnly, specBudgetRangeMissingOnly,
      specCostRangeMissingOnly, specEstimatedHoursMissingOnly, resolvedRateMin,
      resolvedRateMax, c4Project, c4Researcher, blankProject, blankResearcher, jsOrQ,
      checkRangeOverlap, jsFalsyQ, round1, jsRound]

/-- C4 (amended): the budget sub-score equals the overlap fraction between
the project budget range (`budget_max` defaulting to `budget_min` when absent
OR ZERO) and the researcher cost range (resolved rates × estimated hours,
defaulting to 100 when absent OR ZERO) × 15 rounded to one decimal, and is 0
whenever the project's budget minimum or the researcher's resolved rate
minimum is zero or absent. -/
theorem calculateBudgetScore_spec (p : Project) (r : Researcher) :
    calculateBudgetScore p r =
      round1 (checkRangeOverlap (specBudgetRange p) (specCostRange p r) * 15) ∧
    (jsOrQ p.budget_min 0 = 0 ∨ resolvedRateMin r = 0 →
      calculateBudgetScore p r = 0) := by
  have hzero : ∀ h : jsOrQ p.budget_min 0 = 0 ∨ resolvedRateMin r = 0,
      calculateBudgetScore p r = 0 := by
    intro h
    unfold calculateBudgetScore
    dsimp only
    rw [if_pos h]
  refine ⟨?_, hzero⟩
  by_cases hg : jsOrQ p.budget_min 0 = 0 ∨ resolvedRateMin r = 0
  · rw [hzero hg]
    have hover : checkRangeOverlap (specBudgetRange p) (specCostRange p r) = 0 := by
      rcases hg with hpm | hrm
      · apply checkRangeOverlap_falsy_min₁
        show jsFalsyQ (specBudgetRange p).min = true
        have : (specBudgetRange p).min = p.budget_min := rfl
        rw [this]
        simp only [jsFalsyQ, decide_eq_true_eq]
        rw [← jsOrQ_zero_getD]
        exact hpm
      · apply checkRangeOverlap_falsy_min₂
        show jsFalsyQ (specCostRange p r).min = true
        have : (specCostRange p r).min =
            some (resolvedRateMin r * (specEstimatedHours p : ℚ)) := rfl
        rw [this, hrm]
        simp [jsFalsyQ]
    rw [hover]
    norm_num [round1, jsRound]
  · push_neg at hg
    obtain ⟨hpm, hrm⟩ := hg
    have hrange : specBudgetRange p =
        ⟨some (jsOrQ p.budget_min 0), some (jsOrQ p.budget_max (jsOrQ p.budget_min 0))⟩ := by
      rcases hbm : p.budget_min with _ | m
      · exfalso
        apply hpm
        rw [hbm]
        rfl
      · have hm : m ≠ 0 := by
          intro h
          apply hpm
          rw [hbm, h]
          simp [jsOrQ]
        unfold specBudgetRange
        rw [hbm]
        have hminEq : some m = some (jsOrQ (some m) 0) := by simp [jsOrQ, hm]
        rcases p.budget_max with _ | x
        · simp [jsFalsyQ, jsOrQ, hm]
        · by_cases hx : x = 0 <;> simp [jsFalsyQ, jsOrQ, hx, hm]
    have hcost : specCostRange p r =
        ⟨some (resolvedRateMin r * (jsOrZ p.estimated_hours 100 : ℚ)),
         some (resolvedRateMax r * (jsOrZ p.estimated_hours 100 : ℚ))⟩ := rfl
    unfold calculateBudgetScore
    dsimp only
    rw [if_neg (by tauto), hrange, hcost]

/-- C4 witness: the zero/absent-minimum clause at a concrete input. -/
theorem calculateBudgetScore_spec_witness :
    (jsOrQ blankProject.budget_min 0 = 0 ∨ resolvedRateMin c4Researcher = 0) ∧
    calculateBudgetScore blankProject c4Researcher = 0 :=
  ⟨Or.inl (by decide),
   (calculateBudgetScore_spec blankProject c4Researcher).2 (Or.inl (by decide))⟩

/-- C9: a missing project makes `findMatchesForProject` fail with the
not-found error, a missing researcher profile makes `findMatchesForResearcher`
fail with its not-found error, and in either case no match list is
returned. -/
theorem findMatches_notFound
    (projects : List Project) (organizations : List Organization)
    (researchers : List Researcher) (users : List User)
    (projectId researcherId : ℕ) (options : MatchOptions)
    (hfp : projects.find? (fun p => p.project_id == projectId) = none)
    (hfr : researchers.find? (fun r => r.user_id == researcherId) = none) :
    findMatchesForProject projects organizations researchers users projectId options =
      .error "Project not found" ∧
    findMatchesForResearcher researchers projects organizations researcherId options =
      .error "Researcher profile not found" ∧
    (∀ R, findMatchesForProject projects organizations researchers users projectId options ≠
      .ok R) ∧
    (∀ R, findMatchesForResearcher researchers projects organizations researcherId options ≠
      .ok R) := by
  have h1 : findMatchesForProject projects organizations researchers users projectId options =
      .error "Project not found" := by
    unfold findMatchesForProject
    rw [hfp]
  have h2 : findMatchesForResearcher researchers projects organizations researcherId options =
      .error "Researcher profile not found" := by
    unfold findMatchesForResearcher
    rw [hfr]
  refine ⟨h1, h2, ?_, ?_⟩
  · intro R h
    rw [h1] at h
    exact Except.noConfusion h
  · intro R h
    rw [h2] at h
    exact Except.noConfusion h

/-- C9 witness: the not-found failures on an empty database. -/
theorem findMatches_notFound_witness :
    (([] : List Project).find? (fun p => p.project_id == 1) = none) ∧
    (([] : List Researcher).find? (fun r => r.user_id == 2) = none) ∧
    findMatchesForProject [] [] [] [] 1 wOptions = .error "Project not found" ∧
    findMatchesForResearcher [] [] [] 2 wOptions = .error "Researcher profile not found" :=
  ⟨rfl, rfl, (findMatches_notFound [] [] [] [] 1 2 wOptions rfl rfl).1,
   (findMatches_notFound [] [] [] [] 1 2 wOptions rfl rfl).2.1⟩

theorem insertionSort_filter_score {α : Type} (score : α → ℚ) (l : List α) (s : ℚ) :
    (l.insertionSort (scoreDesc score)).filter (fun m => decide (score m = s)) =
      l.filter (fun m => decide (score m = s)) := by
  have hperm : (l.insertionSort (scoreDesc score)).Perm l := List.perm_insertionSort _ _
  have hpair : (l.filter (fun m => decide (score m = s))).Pairwise (scoreDesc score) := by
    apply List.pairwise_of_forall_mem_list
    intro a ha b hb
    have ha' := (List.mem_filter.mp ha).2
    have hb' := (List.mem_filter.mp hb).2
    simp only [decide_eq_true_eq] at ha' hb'
    unfold scoreDesc
    rw [ha', hb']
  have hsub : List.Sublist (l.filter (fun m => decide (score m = s)))
      (l.insertionSort (scoreDesc score)) :=
    List.sublist_insertionSort hpair (List.filter_sublist l)
  have hself : (l.filter (fun m => decide (score m = s))).filter
      (fun m => decide (score m = s)) = l.filter (fun m => decide (score m = s)) :=
    List.filter_eq_self.mpr (fun a ha => (List.mem_filter.mp ha).2)
  have hsub2 := hsub.filter (fun m => decide (score m = s))
  rw [hself] at hsub2
  have hlen : ((l.insertionSort (scoreDesc score)).filter
      (fun m => decide (score m = s))).length =
      (l.filter (fun m => decide (score m = s))).length :=
    (hperm.filter _).length_eq
  exact (hsub2.eq_of_length hlen.symm).symm

theorem paginateMatchesProps {α : Type} (score : α → ℚ) (pool : List α)
    (options : MatchOptions) :
    C2Props score pool options (paginateMatches score pool options) := by
  unfold C2Props paginateMatches
  dsimp only
  refine ⟨rfl, ?_, ?_, ?_, rfl, rfl, rfl, ?_, ?_⟩
  · intro m hm
    have hm1 : m ∈ (pool.filter (fun m => options.minScore ≤ score m)).insertionSort
        (scoreDesc score) :=
      List.mem_of_mem_drop (List.mem_of_mem_take hm)
    have hm2 : m ∈ pool.filter (fun m => options.minScore ≤ score m) :=
      (List.perm_insertionSort _ _).mem_iff.mp hm1
    have := (List.mem_filter.mp hm2).2
    simpa using this
  · have hs : ((pool.filter (fun m => options.minScore ≤ score m)).insertionSort
        (scoreDesc score)).Sorted (scoreDesc score) :=
      List.sorted_insertionSort _ _
    exact hs.sublist ((List.take_sublist _ _).trans (List.drop_sublist _ _))
  · intro s
    exact insertionSort_filter_score score _ s
  · simp
  · intro h
    have hfe : pool.filter (fun m => options.minScore ≤ score m) = [] := by
      apply List.filter_eq_nil_iff.mpr
      intro a ha
      simp only [decide_eq_true_eq]
      exact not_le.mpr (h a ha)
    rw [hfe]
    constructor
    · simp [List.insertionSort]
    · rfl

/-- C2: for every candidate pool and options, both finders return the scored
candidates with every match below `minScore` removed, the rest stable-sorted
descending by `matchScore` (ties retain fetch order), sliced to
`[offset, offset + limit)`, with `pagination.total` the filtered count and
`hasMore` true exactly when `offset + limit` is below it; in particular an
unattainable `minScore` yields an empty list and total 0. -/
theorem findMatches_filter_sort_paginate
    (projects : List Project) (organizations : List Organization)
    (researchers : List Researcher) (users : List User)
    (project : Project) (researcher : Researcher)
    (projectId researcherId : ℕ) (options : MatchOptions)
    (hfp : projects.find? (fun p => p.project_id == projectId) = some project)
    (hfr : researchers.find? (fun r => r.user_id == researcherId) = some researcher) :
    findMatchesForProject projects organizations researchers users projectId options =
      .ok (paginateMatches ProjectMatchEntry.matchScore
        (projectCandidateMatches project organizations researchers users) options) ∧
    C2Props ProjectMatchEntry.matchScore
      (projectCandidateMatches project organizations researchers users) options
      (paginateMatches ProjectMatchEntry.matchScore
        (projectCandidateMatches project organizations researchers users) options) ∧
    findMatchesForResearcher researchers projects organizations researcherId options =
      .ok (paginateMatches ResearcherMatchEntry.matchScore
        (researcherCandidateMatches researcher projects organizations) options) ∧
    C2Props ResearcherMatchEntry.matchScore
      (researcherCandidateMatches researcher projects organizations) options
      (paginateMatches ResearcherMatchEntry.matchScore
        (researcherCandidateMatches researcher projects organizations) options) := by
  refine ⟨?_, paginateMatchesProps _ _ _, ?_, paginateMatchesProps _ _ _⟩
  · unfold findMatchesForProject
    rw [hfp]
  · unfold findMatchesForResearcher
    rw [hfr]

/-- C2 witness: both finders on a one-project, two-researcher database. -/
theorem findMatches_filter_sort_paginate_witness :
    ([wProject].find? (fun p => p.project_id == 1) = some wProject) ∧
    ([wResearcher1, wResearcher2].find? (fun r => r.user_id == 7) = some wResearcher1) ∧
    findMatchesForProject [wProject] [wOrganization] [wResearcher1, wResearcher2]
        [wUser1, wUser2] 1 wOptions =
      .ok (paginateMatches ProjectMatchEntry.matchScore
        (projectCandidateMatches wProject [wOrganization] [wResearcher1, wResearcher2]
          [wUser1, wUser2]) wOptions) ∧
    C2Props ProjectMatchEntry.matchScore
      (projectCandidateMatches wProject [wOrganization] [wResearcher1, wResearcher2]
        [wUser1, wUser2]) wOptions
      (paginateMatches ProjectMatchEntry.matchScore
        (projectCandidateMatches wProject [wOrganization] [wResearcher1, wResearcher2]
          [wUser1, wUser2]) wOptions) ∧
    findMatchesForResearcher [wResearcher1, wResearcher2] [wProject] [wOrganization]
        7 wOptions =
      .ok (paginateMatches ResearcherMatchEntry.matchScore
        (researcherCandidateMatches wResearcher1 [wProject] [wOrganization]) wOptions) ∧
    C2Props ResearcherMatchEntry.matchScore
      (researcherCandidateMatches wResearcher1 [wProject] [wOrganization]) wOptions
      (paginateMatches ResearcherMatchEntry.matchScore
        (researcherCandidateMatches wResearcher1 [wProject] [wOrganization]) wOptions) := by
  have hfp : [wProject].find? (fun p => p.project_id == 1) = some wProject := by
    decide
  have hfr : [wResearcher1, wResearcher2].find? (fun r => r.user_id == 7) =
      some wResearcher1 := by decide
  have hmain := findMatches_filter_sort_paginate [wProject] [wOrganization]
    [wResearcher1, wResearcher2] [wUser1, wUser2] wProject wResearcher1 1 7 wOptions
    hfp hfr
  exact ⟨hfp, hfr, hmain.1, hmain.2.1, hmain.2.2.1, hmain.2.2.2⟩

/-- C8: for every existing project/researcher pair, the explain operation's
`totalScore` equals `calculateMatchScore`'s `totalScore` for the same inputs,
each factor's reported score is the corresponding breakdown entry, the factor
maxima are 30/25/15/10/10/10 and each reported percentage equals
`round(score / max × 100)`. -/
theorem explainMatch_consistent
    (projects : List Project) (organizations : List Organization)
    (researchers : List Researcher) (projectId researcherId : ℕ)
    (project : Project) (researcher : Researcher)
    (hp0 : projectId ≠ 0) (hr0 : researcherId ≠ 0)
    (hfp : projects.find? (fun p => p.project_id == projectId) = some project)
    (hfr : researchers.find? (fun r => r.user_id == researcherId) = some researcher)
    (E : ExplainResult)
    (hE : explainMatch projects organizations researchers projectId researcherId = .ok E) :
    E.totalScore =
      (calculateMatchScore (attachOrganization project organizations) researcher).totalScore ∧
    E.breakdown.expertise.score =
      (calculateMatchScore (attachOrganization project organizations) researcher).breakdown.expertise ∧
    E.breakdown.methods.score =
      (calculateMatchScore (attachOrganization project organizations) researcher).breakdown.methods ∧
    E.breakdown.budget.score =
      (calculateMatchScore (attachOrganization project organizations) researcher).breakdown.budget ∧
    E.breakdown.availability.score =
      (calculateMatchScore (attachOrganization project organizations) researcher).breakdown.availability ∧
    E.breakdown.experience.score =
      (calculateMatchScore (attachOrganization project organizations) researcher).breakdown.experience ∧
    E.breakdown.domain.score =
      (calculateMatchScore (attachOrganization project organizations) researcher).breakdown.domain ∧
    E.breakdown.expertise.maxPoints = 30 ∧
    E.breakdown.methods.maxPoints = 25 ∧
    E.breakdown.budget.maxPoints = 15 ∧
    E.breakdown.availability.maxPoints = 10 ∧
    E.breakdown.experience.maxPoints = 10 ∧
    E.breakdown.domain.maxPoints = 10 ∧
    E.breakdown.expertise.percentage =
      jsRound (E.breakdown.expertise.score / E.breakdown.expertise.maxPoints * 100) ∧
    E.breakdown.methods.percentage =
      jsRound (E.breakdown.methods.score / E.breakdown.methods.maxPoints * 100) ∧
    E.breakdown.budget.percentage =
      jsRound (E.breakdown.budget.score / E.breakdown.budget.maxPoints * 100) ∧
    E.breakdown.availability.percentage =
      jsRound (E.breakdown.availability.score / E.breakdown.availability.maxPoints * 100) ∧
    E.breakdown.experience.percentage =
      jsRound (E.breakdown.experience.score / E.breakdown.experience.maxPoints * 100) ∧
    E.breakdown.domain.percentage =
      jsRound (E.breakdown.domain.score / E.breakdown.domain.maxPoints * 100) := by
  unfold explainMatch at hE
  rw [if_neg (by push_neg; exact ⟨hp0, hr0⟩)] at hE
  rw [hfp, hfr] at hE
  dsimp only at hE
  injection hE with hEq
  subst hEq
  refine ⟨rfl, rfl, rfl, rfl, rfl, rfl, rfl, rfl, rfl, rfl, rfl, rfl, rfl,
    rfl, rfl, rfl, rfl, rfl, rfl⟩

/-- C8 witness: the consistency facts on the sample database. -/
theorem explainMatch_consistent_witness :
    (1 : ℕ) ≠ 0 ∧ (7 : ℕ) ≠ 0 ∧
    ([wProject].find? (fun p => p.project_id == 1) = some wProject) ∧
    ([wResearcher1, wResearcher2].find? (fun r => r.user_id == 7) = some wResearcher1) ∧
    explainMatch [wProject] [wOrganization] [wResearcher1, wResearcher2] 1 7 =
      .ok wExplainResult ∧
    wExplainResult.totalScore =
      (calculateMatchScore (attachOrganization wProject [wOrganization])
        wResearcher1).totalScore ∧
    wExplainResult.breakdown.expertise.percentage =
      jsRound (wExplainResult.breakdown.expertise.score /
        wExplainResult.breakdown.expertise.maxPoints * 100) := by
  have hE : explainMatch [wProject] [wOrganization] [wResearcher1, wResearcher2] 1 7 =
      .ok wExplainResult := rfl
  have hmain := explainMatch_consistent [wProject] [wOrganization]
    [wResearcher1, wResearcher2] 1 7 wProject wResearcher1 (by decide) (by decide)
    (by decide) (by decide) wExplainResult hE
  exact ⟨by decide, by decide, by decide, by decide, hE, hmain.1,
    hmain.2.2.2.2.2.2.2.2.2.2.2.2.2.1⟩

end Trident
